import Mathlib

/-!
# Verification of the fallible-allocation collections layer

A shallow embedding of the `fallacy` crate: a fallible growable buffer
(`src/vec.rs`), the fallible string reserve path (`src/collections/string.rs`),
the failure taxonomy (`src/alloc.rs`, `src/clone.rs`) and the clone-on-write
wrapper (`src/borrow.rs`).

The crate wraps the standard library's `Vec`/`String`; those backing
operations (`std`'s `try_reserve`, `push`, `pop`, `extend_from_slice`) are
external to the repository and are modelled here from their documented
contract: a buffer is a pair of an element list (the initialized prefix) and
a capacity, the allocator is an explicit parameter deciding which byte
requests succeed, machine integers are `Nat` with the `usize`/`isize` bounds
made explicit, and a Rust `panic!`/`unreachable!` is an `Option.none` result.
All state-mutating operations are embedded in state-passing style: they
return the final buffer state together with the result, so that "the buffer
is unchanged on failure" is a provable statement rather than an artefact of
the embedding.
-/

set_option autoImplicit false

namespace Fallacy

/-- `usize::MAX` on a 64-bit platform. -/
def usizeMax : Nat := 2 ^ 64 - 1

/-- `isize::MAX` on a 64-bit platform; `std`'s vectors never allocate more
than this many bytes. -/
def isizeMax : Nat := 2 ^ 63 - 1

/-- `std::alloc::Layout`: a requested size and alignment in bytes. -/
structure Layout where
  size : Nat
  align : Nat
  deriving DecidableEq, Repr

/-- The two kinds of `std::collections::TryReserveError`
(`TryReserveErrorKind::CapacityOverflow` and
`TryReserveErrorKind::AllocError \x7b layout, .. \x7d`). -/
inductive TryReserveErr where
  | capacityOverflow : TryReserveErr
  | allocError : Layout → TryReserveErr
  deriving DecidableEq, Repr

/-- `fallacy::alloc::AllocationError` (src/alloc.rs): allocation failure
carrying the requested layout, or capacity overflow carrying a capacity. -/
inductive AllocationError where
  | allocError : Layout → AllocationError
  | capacityOverflow : Nat → AllocationError
  deriving DecidableEq, Repr

/-- `fallacy::clone::CloneError` (src/clone.rs): only an allocation-failure
kind exists on the clone path. -/
inductive CloneError where
  | allocError : Layout → CloneError
  deriving DecidableEq, Repr

/-- The only `std::io::ErrorKind` produced by the `io::Write` impl for
`Vec<u8>` (src/vec.rs). -/
inductive IoErrorKind where
  | outOfMemory : IoErrorKind
  deriving DecidableEq, Repr

/-- The model of the external allocator capability together with the layout
data of the element type: `elemSize`/`elemAlign` are `size_of::<T>()` and
`align_of::<T>()`, and `canAlloc` decides whether the global allocator can
satisfy a request for a given layout. -/
structure AllocModel where
  elemSize : Nat
  elemAlign : Nat
  canAlloc : Layout → Bool

/-- The observable state of a `fallacy::vec::Vec<T>` (src/vec.rs, a
`#[repr(transparent)]` wrapper around `std::vec::Vec<T>`): the initialized
elements `[0, length)` and the allocated slot count. -/
structure Vec (α : Type) where
  data : List α
  cap : Nat
  deriving DecidableEq, Repr

namespace Vec

/-- `Vec::new`: empty, zero capacity. -/
def new {α : Type} : Vec α := ⟨[], 0⟩

/-- `Vec::len`. -/
def len {α : Type} (v : Vec α) : Nat := v.data.length

end Vec

/-- Model of `std::vec::Vec::try_reserve` (the backing implementation of
`Vec::try_reserve` in src/vec.rs), from its documented contract: a no-op when
`len + additional <= cap`; capacity overflow when `len + additional` is not
representable in `usize` or the new allocation would exceed `isize::MAX`
bytes; otherwise the amortized growth policy takes the larger of the
required capacity and twice the current capacity and asks the allocator,
which either installs the new capacity or fails with the attempted layout.
On every failure path the buffer is left untouched. -/
def stdTryReserve {α : Type} (A : AllocModel) (v : Vec α) (additional : Nat) :
    Vec α × Option TryReserveErr :=
  if v.data.length + additional ≤ v.cap then (v, none)
  else if usizeMax < v.data.length + additional then (v, some TryReserveErr.capacityOverflow)
  else
    let newCap := max (v.data.length + additional) (2 * v.cap)
    if isizeMax < newCap * A.elemSize then (v, some TryReserveErr.capacityOverflow)
    else if A.canAlloc ⟨newCap * A.elemSize, A.elemAlign⟩ then
      ({ v with cap := newCap }, none)
    else (v, some (TryReserveErr.allocError ⟨newCap * A.elemSize, A.elemAlign⟩))

/-- Model of `std::vec::Vec::try_reserve_exact` (the backing implementation
of `Vec::try_reserve_exact` in src/vec.rs): as `stdTryReserve` but the target
capacity is exactly `len + additional`. -/
def stdTryReserveExact {α : Type} (A : AllocModel) (v : Vec α) (additional : Nat) :
    Vec α × Option TryReserveErr :=
  if v.data.length + additional ≤ v.cap then (v, none)
  else if usizeMax < v.data.length + additional then (v, some TryReserveErr.capacityOverflow)
  else
    let newCap := v.data.length + additional
    if isizeMax < newCap * A.elemSize then (v, some TryReserveErr.capacityOverflow)
    else if A.canAlloc ⟨newCap * A.elemSize, A.elemAlign⟩ then
      ({ v with cap := newCap }, none)
    else (v, some (TryReserveErr.allocError ⟨newCap * A.elemSize, A.elemAlign⟩))

/-- `Vec::try_reserve` (src/vec.rs): forwards to the backing vector's
`try_reserve`. -/
def tryReserve {α : Type} (A : AllocModel) (v : Vec α) (additional : Nat) :
    Vec α × Option TryReserveErr :=
  stdTryReserve A v additional

/-- `Vec::try_reserve_exact` (src/vec.rs): forwards to the backing vector's
`try_reserve_exact`. -/
def tryReserveExact {α : Type} (A : AllocModel) (v : Vec α) (additional : Nat) :
    Vec α × Option TryReserveErr :=
  stdTryReserveExact A v additional

/-- `Vec::try_push` (src/vec.rs): when `len == capacity`, first
`try_reserve(1)`; a reserve failure is propagated by `?` (and `value`, still
owned by the function, is dropped at the early return — the error carries
nothing). Otherwise the element is written into the free slot and the length
incremented (the backing `push` cannot allocate after the reserve). -/
def tryPush {α : Type} (A : AllocModel) (v : Vec α) (value : α) :
    Vec α × Option TryReserveErr :=
  if v.data.length = v.cap then
    match stdTryReserve A v 1 with
    | (v', some e) => (v', some e)
    | (v', none) => ({ v' with data := v'.data ++ [value] }, none)
  else ({ v with data := v.data ++ [value] }, none)

/-- The elements dropped inside a `try_push` call, per Rust's drop semantics
for `try_push`'s owned `value: T` parameter (src/vec.rs): on the early error
return of `self.try_reserve(1)?` the parameter has not been moved out, so it
is dropped when the function's scope ends; on success it is moved into the
buffer and nothing is dropped. -/
def tryPushDropped {α : Type} (A : AllocModel) (v : Vec α) (value : α) : List α :=
  match tryPush A v value with
  | (_, some _) => [value]
  | (_, none) => []

/-- `Vec::pop` (src/vec.rs, forwarding to the backing vector's `pop`): on a
non-empty buffer, removes and returns the last element; returns `none` on an
empty buffer. Total — it cannot fail. -/
def pop {α : Type} (v : Vec α) : Option α × Vec α :=
  match v.data.getLast? with
  | none => (none, v)
  | some x => (some x, ⟨v.data.dropLast, v.cap⟩)

/-- The write loop of `Vec::try_extend_with` (src/vec.rs) under the
`SetLenOnDrop` scope guard: productions `gen start, gen (start+1), ...` are
written into consecutive slots, the tracked length growing by one after
every single successful write, until `count` elements are written or a
production fails. The returned list is exactly the initialized suffix the
guard's `Drop` commits to the vector's length, and the returned error, if
any, is the failing production's. -/
def extendLoop {α : Type} (gen : Nat → Except TryReserveErr α) :
    Nat → Nat → List α × Option TryReserveErr
  | _, 0 => ([], none)
  | start, count + 1 =>
    match gen start with
    | Except.error e => ([], some e)
    | Except.ok x =>
      let rest := extendLoop gen (start + 1) count
      (x :: rest.1, rest.2)

/-- `Vec::try_extend_with` (src/vec.rs) instantiated with the `ExtendFunc`
generator (used by `try_resize_with`): `try_reserve(n)?`, then the first
`n − 1` productions are written via `next()` and the `n`-th via `last()` —
for `ExtendFunc` both call the same closure, so the productions are the
sequential calls `gen 0, ..., gen (n−1)`. The `SetLenOnDrop` guard sets the
final length to the count of successful writes even on the early error
return. -/
def tryExtendWith {α : Type} (A : AllocModel) (v : Vec α) (n : Nat)
    (gen : Nat → Except TryReserveErr α) : Vec α × Option TryReserveErr :=
  match stdTryReserve A v n with
  | (v', some e) => (v', some e)
  | (v', none) =>
    let written := extendLoop gen 0 n
    ({ v' with data := v'.data ++ written.1 }, written.2)

/-- The write loop of `Vec::try_extend_from_slice` (src/vec.rs) under the
`SetLenOnDrop` scope guard: each source element is cloned via the fallible
clone `cl` and written, the tracked length growing after every successful
write, until the slice is exhausted or a clone fails. -/
def cloneLoop {α : Type} (cl : α → Except TryReserveErr α) :
    List α → List α × Option TryReserveErr
  | [] => ([], none)
  | x :: xs =>
    match cl x with
    | Except.error e => ([], some e)
    | Except.ok y =>
      let rest := cloneLoop cl xs
      (y :: rest.1, rest.2)

/-- `Vec::try_extend_from_slice` (src/vec.rs): `try_reserve(other.len())?`,
then the per-element clone-and-write loop under the `SetLenOnDrop` guard. -/
def tryExtendFromSlice {α : Type} (A : AllocModel) (v : Vec α) (other : List α)
    (cl : α → Except TryReserveErr α) : Vec α × Option TryReserveErr :=
  match stdTryReserve A v other.length with
  | (v', some e) => (v', some e)
  | (v', none) =>
    let written := cloneLoop cl other
    ({ v' with data := v'.data ++ written.1 }, written.2)

/-- `<Vec<u8> as io::Write>::write` (src/vec.rs): `try_reserve(buf.len())`,
mapping a reserve failure to `io::ErrorKind::OutOfMemory`; on success the
whole slice is appended by the backing `extend_from_slice` (which cannot
allocate after the reserve) and `buf.len()` is returned. Bytes are modelled
as `Nat`. -/
def vecWrite (A : AllocModel) (v : Vec Nat) (buf : List Nat) :
    Vec Nat × Except IoErrorKind Nat :=
  match stdTryReserve A v buf.length with
  | (v', some _) => (v', Except.error IoErrorKind.outOfMemory)
  | (v', none) => ({ v' with data := v'.data ++ buf }, Except.ok buf.length)

/-- `<Vec<u8> as io::Write>::write_all` (src/vec.rs): identical to `write`
but returns `()` on success. -/
def vecWriteAll (A : AllocModel) (v : Vec Nat) (buf : List Nat) :
    Vec Nat × Except IoErrorKind Unit :=
  match stdTryReserve A v buf.length with
  | (v', some _) => (v', Except.error IoErrorKind.outOfMemory)
  | (v', none) => ({ v' with data := v'.data ++ buf }, Except.ok ())

/-- `AllocationError::from_try_reserve_error` (src/alloc.rs): the
capacity-overflow kind takes the caller-supplied `cap`, the
allocation-failure kind keeps the layout from the underlying error. -/
def AllocationError.fromTryReserveError (e : TryReserveErr) (cap : Nat) : AllocationError :=
  match e with
  | TryReserveErr.capacityOverflow => AllocationError.capacityOverflow cap
  | TryReserveErr.allocError layout => AllocationError.allocError layout

/-- `String::try_reserve` (src/collections/string.rs): forwards to the
backing string's `try_reserve` — a byte buffer, so `stdTryReserve` over the
UTF-8 bytes (modelled as `Nat`s) — and maps its error through
`AllocationError::from_try_reserve_error(e, usize::MAX)`, with the literal
`usize::MAX` as the carried capacity. -/
def stringTryReserve (A : AllocModel) (s : Vec Nat) (additional : Nat) :
    Vec Nat × Option AllocationError :=
  match stdTryReserve A s additional with
  | (s', none) => (s', none)
  | (s', some e) => (s', some (AllocationError.fromTryReserveError e usizeMax))

/-- `impl From<AllocationError> for CloneError` (src/clone.rs): the
allocation-failure kind converts, carrying the same layout; the
capacity-overflow arm is `unreachable!("unexpected capacity overflow
occurred while cloning")` — a panic, modelled as `none`. -/
def CloneError.fromAllocationError (e : AllocationError) : Option CloneError :=
  match e with
  | AllocationError.allocError layout => some (CloneError.allocError layout)
  | AllocationError.capacityOverflow _ => none

/-- The digits `Display` writes for a number (`\x7b\x7d` formatting of a
`usize`). -/
def natChars (n : Nat) : List Char := (Nat.repr n).data

/-- `impl Display for AllocationError` (src/alloc.rs), as the character
sequence written to the formatter: the allocation-failure arm renders the
layout's size and alignment, the capacity-overflow arm renders the carried
capacity. -/
def AllocationError.display (e : AllocationError) : List Char :=
  match e with
  | AllocationError.allocError layout =>
    ("failed to allocate memory, required layout \x7bsize: ").data ++ natChars layout.size
      ++ (", align: ").data ++ natChars layout.align ++ ("\x7d").data
  | AllocationError.capacityOverflow cap =>
    ("the computed capacity exceeded the collection's maximum(").data ++ natChars cap
      ++ (")").data

/-- `fallacy::borrow::Cow` (src/borrow.rs): a clone-on-write wrapper holding
either a borrowed view of type `β` or an owned value of type `ω`
(`<B as TryToOwned>::Owned`). -/
inductive Cow (β ω : Type) where
  | borrowed : β → Cow β ω
  | owned : ω → Cow β ω
  deriving DecidableEq, Repr

namespace Cow

/-- `Cow::to_mut` (src/borrow.rs), with `tto` the `TryToOwned::try_to_owned`
capability of the borrowed type: on a `Borrowed` wrapper,
`*self = Cow::Owned(borrowed.try_to_owned()?)` — a clone failure returns
before the assignment, leaving the wrapper borrowed; on success the wrapper
becomes `Owned` and the owned value is handed out. On an `Owned` wrapper the
existing owned value is handed out directly, `tto` untouched. The returned
mutable reference is modelled by the owned value itself. -/
def toMut {β ω ε : Type} (tto : β → Except ε ω) : Cow β ω → Cow β ω × Except ε ω
  | borrowed b =>
    match tto b with
    | Except.ok o => (owned o, Except.ok o)
    | Except.error e => (borrowed b, Except.error e)
  | owned o => (owned o, Except.ok o)

/-- `Cow::into_owned` (src/borrow.rs): a `Borrowed` wrapper is duplicated by
`try_to_owned`; an `Owned` wrapper gives up its payload directly. -/
def intoOwned {β ω ε : Type} (tto : β → Except ε ω) : Cow β ω → Except ε ω
  | borrowed b => tto b
  | owned o => Except.ok o

/-- `impl TryClone for Cow` (src/borrow.rs), with `br` the `Borrow::borrow`
view of the owned type: a `Borrowed` wrapper is duplicated as the same
reference (`Ok(Cow::Borrowed(*b))`, no data duplicated); an `Owned` wrapper
re-borrows its payload and runs the fallible `try_to_owned` on it. -/
def tryClone {β ω ε : Type} (br : ω → β) (tto : β → Except ε ω) :
    Cow β ω → Except ε (Cow β ω)
  | borrowed b => Except.ok (borrowed b)
  | owned o =>
    match tto (br o) with
    | Except.ok o2 => Except.ok (owned o2)
    | Except.error e => Except.error e

end Cow

/-- A test allocator that refuses every request, for a unit-sized,
unit-aligned element type. -/
def failAlloc : AllocModel := ⟨1, 1, fun _ => false⟩

/-- A test allocator that grants every request, for a unit-sized,
unit-aligned element type. -/
def okAlloc : AllocModel := ⟨1, 1, fun _ => true⟩

/-! ## Helper lemmas about the reserve model -/

theorem stdTryReserve_fail_unchanged {α : Type} {A : AllocModel} {v v' : Vec α}
    {n : Nat} {e : TryReserveErr} (h : stdTryReserve A v n = (v', some e)) : v' = v := by
  simp only [stdTryReserve] at h
  split_ifs at h <;> simp_all

theorem stdTryReserveExact_fail_unchanged {α : Type} {A : AllocModel} {v v' : Vec α}
    {n : Nat} {e : TryReserveErr} (h : stdTryReserveExact A v n = (v', some e)) : v' = v := by
  simp only [stdTryReserveExact] at h
  split_ifs at h <;> simp_all

theorem stdTryReserve_fst_data {α : Type} (A : AllocModel) (v : Vec α) (n : Nat) :
    ((stdTryReserve A v n).1).data = v.data := by
  simp only [stdTryReserve]
  split_ifs <;> rfl

theorem stdTryReserve_cap_le {α : Type} (A : AllocModel) (v : Vec α) (n : Nat) :
    v.cap ≤ ((stdTryReserve A v n).1).cap := by
  simp only [stdTryReserve]
  split_ifs <;> simp_all
  have := Nat.le_max_right (v.data.length + n) (2 * v.cap)
  omega

theorem stdTryReserve_ok_spec {α : Type} {A : AllocModel} {v v' : Vec α} {n : Nat}
    (h : stdTryReserve A v n = (v', none)) :
    v.data.length + n ≤ v'.cap ∧ v'.data = v.data := by
  simp only [stdTryReserve] at h
  split_ifs at h with h1 h2 h3 h4
  · rw [Prod.mk.injEq] at h
    obtain ⟨rfl, -⟩ := h
    exact ⟨h1, rfl⟩
  · exact absurd h (by simp)
  · exact absurd h (by simp)
  · rw [Prod.mk.injEq] at h
    obtain ⟨rfl, -⟩ := h
    exact ⟨Nat.le_max_left _ _, rfl⟩
  · exact absurd h (by simp)

theorem stdTryReserve_noop {α : Type} {A : AllocModel} {v : Vec α} {n : Nat}
    (h : v.data.length + n ≤ v.cap) : stdTryReserve A v n = (v, none) := by
  simp [stdTryReserve, h]

/-! ## Claim theorems -/

/-- C1: for every buffer and every requested additional capacity, if
`try_reserve` (or `try_reserve_exact`) returns a failure, then the buffer's
length, capacity and element contents are exactly what they were immediately
before the call — failure has zero observable effect. -/
theorem try_reserve_failure_leaves_buffer_unchanged {α : Type} (A : AllocModel)
    (v v' : Vec α) (additional : Nat) (e : TryReserveErr) :
    (tryReserve A v additional = (v', some e) → v' = v) ∧
    (tryReserveExact A v additional = (v', some e) → v' = v) :=
  ⟨fun h => stdTryReserve_fail_unchanged h, fun h => stdTryReserveExact_fail_unchanged h⟩

/-- Witness for C1: a concrete failing `try_reserve` call (allocator refuses
the request) leaves the concrete buffer unchanged. -/
theorem try_reserve_failure_witness :
    tryReserve failAlloc (⟨[7], 1⟩ : Vec Nat) 3 = (⟨[7], 1⟩, some (TryReserveErr.allocError ⟨4, 1⟩)) ∧
    (⟨[7], 1⟩ : Vec Nat) = ⟨[7], 1⟩ :=
  ⟨by decide,
    (try_reserve_failure_leaves_buffer_unchanged failAlloc ⟨[7], 1⟩ ⟨[7], 1⟩ 3
      (TryReserveErr.allocError ⟨4, 1⟩)).1 (by decide)⟩

/-- C4: `try_reserve(additional)` never decreases capacity; on success the
capacity afterward covers `length + additional` (the length and contents are
untouched); and when the capacity is already sufficient the call is a no-op
that succeeds. -/
theorem try_reserve_capacity_monotonic {α : Type} (A : AllocModel) (v : Vec α)
    (additional : Nat) :
    (v.cap ≤ ((tryReserve A v additional).1).cap) ∧
    (∀ v', tryReserve A v additional = (v', none) →
      v'.data = v.data ∧ v'.data.length + additional ≤ v'.cap) ∧
    (v.data.length + additional ≤ v.cap → tryReserve A v additional = (v, none)) := by
  refine ⟨stdTryReserve_cap_le A v additional, ?_, fun h => stdTryReserve_noop h⟩
  intro v' h
  obtain ⟨hcap, hdata⟩ := stdTryReserve_ok_spec h
  exact ⟨hdata, by rw [hdata]; exact hcap⟩

/-- Witness for C4: a concrete successful `try_reserve` grows a length-1
buffer to capacity 4 (the doubled capacity loses to the required capacity
here: `max (1+3) (2*1) = 4`), and a concrete already-sufficient call is a
no-op. -/
theorem try_reserve_capacity_monotonic_witness :
    ((⟨[5], 1⟩ : Vec Nat).cap ≤ ((tryReserve okAlloc ⟨[5], 1⟩ 3).1).cap) ∧
    ((⟨[5], 4⟩ : Vec Nat).data = [5] ∧ (⟨[5], 4⟩ : Vec Nat).data.length + 3 ≤ 4) ∧
    (tryReserve okAlloc (⟨[5], 8⟩ : Vec Nat) 3 = (⟨[5], 8⟩, none)) := by
  obtain ⟨h1, h2, h3⟩ := try_reserve_capacity_monotonic okAlloc (⟨[5], 1⟩ : Vec Nat) 3
  refine ⟨h1, h2 ⟨[5], 4⟩ (by decide), ?_⟩
  exact (try_reserve_capacity_monotonic okAlloc (⟨[5], 8⟩ : Vec Nat) 3).2.2 (by decide)

/-- C5: a successful `try_push(v)` followed by `pop()` yields `Some(v)` and
restores the original length and element contents; `pop()` on a non-empty
buffer removes and returns the last element and never fails (it is total);
`pop()` on an empty buffer returns `None`. -/
theorem push_pop_duality {α : Type} (A : AllocModel) (v : Vec α) (x : α) :
    (∀ v', tryPush A v x = (v', none) → pop v' = (some x, ⟨v.data, v'.cap⟩)) ∧
    (v.data = [] → pop v = (none, v)) ∧
    (∀ h : v.data ≠ [], pop v = (some (v.data.getLast h), ⟨v.data.dropLast, v.cap⟩)) := by
  refine ⟨?_, ?_, ?_⟩
  · intro v' h
    simp only [tryPush] at h
    split_ifs at h with hc
    · rcases hr : stdTryReserve A v 1 with ⟨w, oe⟩
      rw [hr] at h
      cases oe with
      | some e => simp at h
      | none =>
        rw [Prod.mk.injEq] at h
        obtain ⟨rfl, -⟩ := h
        have hd : w.data = v.data := by
          have hw := stdTryReserve_fst_data A v 1
          rw [hr] at hw
          exact hw
        simp [pop, hd, List.getLast?_concat, List.dropLast_concat]
    · rw [Prod.mk.injEq] at h
      obtain ⟨rfl, -⟩ := h
      simp [pop, List.getLast?_concat, List.dropLast_concat]
  · intro h
    simp [pop, h]
  · intro h
    simp [pop, List.getLast?_eq_getLast v.data h]

/-- Witness for C5: pushing 9 onto the concrete full buffer `[1,2]` (capacity
2, so the implicit reserve grows it to 4) and popping yields 9 and restores
`[1,2]`; popping the empty buffer yields none; popping `[1,2]` yields 2. -/
theorem push_pop_duality_witness :
    pop (⟨[1, 2, 9], 4⟩ : Vec Nat) = (some 9, ⟨[1, 2], 4⟩) ∧
    pop (⟨([] : List Nat), 0⟩) = (none, ⟨[], 0⟩) ∧
    pop (⟨[1, 2], 2⟩ : Vec Nat) = (some 2, ⟨[1], 2⟩) := by
  obtain ⟨h1, h2, h3⟩ := push_pop_duality okAlloc (⟨[1, 2], 2⟩ : Vec Nat) 9
  refine ⟨h1 ⟨[1, 2, 9], 4⟩ (by decide), ?_, by simpa using h3 (by decide)⟩
  exact (push_pop_duality okAlloc (⟨([] : List Nat), 0⟩) 9).2.1 rfl

/-- C3 counterexample: the claim says a failing `try_push(v)` returns `v` to
the caller unconsumed, not dropped inside the operation. On the concrete
input — empty buffer, allocator refusing every request — `try_push` fails,
its error (`Result<(), AllocError>`) carries nothing, and the value 42 is
dropped inside the call: the claim is false as stated. -/
theorem try_push_returns_value_counterexample :
    tryPush failAlloc (Vec.new (α := Nat)) 42 =
      (Vec.new, some (TryReserveErr.allocError ⟨1, 1⟩)) ∧
    tryPushDropped failAlloc (Vec.new (α := Nat)) 42 ≠ [] := by
  exact ⟨by decide, by decide⟩

/-- C3 (amended): if `try_push(v)` fails (which happens exactly when the
buffer is full and the implicit reserve of one slot fails), the buffer's
length, capacity and contents are unchanged, but the value is not returned
to the caller — it is dropped inside the operation, the error carrying
nothing. -/
theorem try_push_failure_spec {α : Type} (A : AllocModel) (v : Vec α) (x : α) :
    (∀ v' e, tryPush A v x = (v', some e) → v' = v ∧ tryPushDropped A v x = [x]) ∧
    ((tryPush A v x).2.isSome ↔
      (v.data.length = v.cap ∧ ((stdTryReserve A v 1).2).isSome)) := by
  constructor
  · intro v' e h
    have hd : tryPushDropped A v x = [x] := by
      simp only [tryPushDropped, h]
    refine ⟨?_, hd⟩
    simp only [tryPush] at h
    split_ifs at h with hc
    · rcases hr : stdTryReserve A v 1 with ⟨w, oe⟩
      rw [hr] at h
      cases oe with
      | some e2 =>
        rw [Prod.mk.injEq] at h
        obtain ⟨rfl, -⟩ := h
        exact stdTryReserve_fail_unchanged hr
      | none => simp at h
    · simp at h
  · simp only [tryPush]
    split_ifs with hc
    · rcases hr : stdTryReserve A v 1 with ⟨w, oe⟩
      cases oe <;> simp [hc]
    · simp [hc]

/-- Witness for C3 (amended): the concrete failing `try_push` of 42 onto the
empty buffer under the refusing allocator leaves the buffer unchanged, drops
the value inside, and its failure coincides with the implicit reserve
failing. -/
theorem try_push_failure_spec_witness :
    (Vec.new (α := Nat) = Vec.new ∧
      tryPushDropped failAlloc (Vec.new (α := Nat)) 42 = [42]) ∧
    (tryPush failAlloc (Vec.new (α := Nat)) 42).2.isSome := by
  obtain ⟨h1, h2⟩ := try_push_failure_spec failAlloc (Vec.new (α := Nat)) 42
  exact ⟨h1 Vec.new (TryReserveErr.allocError ⟨1, 1⟩) (by decide), h2.mpr (by decide)⟩

theorem extendLoop_partial {α : Type} (e : TryReserveErr) :
    ∀ (m : Nat) (gen : Nat → Except TryReserveErr α) (count : Nat) (f : Nat → α)
      (start : Nat), m < count →
      (∀ j, j < m → gen (start + j) = Except.ok (f j)) →
      gen (start + m) = Except.error e →
      extendLoop gen start count = ((List.range m).map f, some e) := by
  intro m
  induction m with
  | zero =>
    intro gen count f start hm hok herr
    match count, hm with
    | c + 1, _ =>
      simp only [extendLoop]
      rw [show start + 0 = start from rfl] at herr
      rw [herr]
      simp
  | succ m ih =>
    intro gen count f start hm hok herr
    match count, hm with
    | c + 1, _ =>
      simp only [extendLoop]
      have h0 : gen start = Except.ok (f 0) := by
        have := hok 0 (Nat.succ_pos m)
        simpa using this
      rw [h0]
      have hrest : extendLoop gen (start + 1) c = ((List.range m).map (fun j => f (j + 1)), some e) := by
        refine ih gen c (fun j => f (j + 1)) (start + 1) (by omega) ?_ ?_
        · intro j hj
          have := hok (j + 1) (by omega)
          rw [show start + (j + 1) = start + 1 + j by omega] at this
          exact this
        · rw [show start + 1 + m = start + (m + 1) by omega]
          exact herr
      rw [hrest]
      simp [List.range_succ_eq_map, List.map_map, Function.comp]

theorem cloneLoop_partial {α : Type} (cl : α → Except TryReserveErr α)
    (e : TryReserveErr) (x : α) (rest : List α) (hx : cl x = Except.error e) :
    ∀ (pre ys : List α), List.Forall₂ (fun a b => cl a = Except.ok b) pre ys →
      cloneLoop cl (pre ++ x :: rest) = (ys, some e) := by
  intro pre ys hf
  induction hf with
  | nil => simp [cloneLoop, hx]
  | cons ha _ ih =>
    simp [cloneLoop, ha, ih]

/-- C2: for an extend of `n` elements via `try_extend_with` whose generator
fails at the `k`-th production (`1 ≤ k ≤ n`, the reserve having succeeded),
the buffer afterward holds exactly its original elements followed by the
first `k − 1` successfully produced elements and its tracked length is the
original length plus `k − 1` — the `SetLenOnDrop` guard commits exactly the
writes that happened, so no produced element is leaked (each stored exactly
once) and no uninitialized slot is exposed. Likewise for
`try_extend_from_slice` when the fallible clone of the source slice fails
after `k − 1` successful clones. -/
theorem try_extend_partial_failure {α : Type} (A : AllocModel) (v v' w : Vec α)
    (n k : Nat) (gen : Nat → Except TryReserveErr α) (f : Nat → α)
    (e : TryReserveErr) (pre rest : List α) (x : α) (ys : List α)
    (cl : α → Except TryReserveErr α) :
    (stdTryReserve A v n = (v', none) → 1 ≤ k → k ≤ n →
      (∀ j, j < k - 1 → gen j = Except.ok (f j)) →
      gen (k - 1) = Except.error e →
      tryExtendWith A v n gen = (⟨v.data ++ (List.range (k - 1)).map f, v'.cap⟩, some e) ∧
      (tryExtendWith A v n gen).1.data.length = v.data.length + (k - 1)) ∧
    (stdTryReserve A v (pre ++ x :: rest).length = (w, none) →
      List.Forall₂ (fun a b => cl a = Except.ok b) pre ys →
      cl x = Except.error e →
      tryExtendFromSlice A v (pre ++ x :: rest) cl = (⟨v.data ++ ys, w.cap⟩, some e) ∧
      (tryExtendFromSlice A v (pre ++ x :: rest) cl).1.data.length =
        v.data.length + pre.length) := by
  constructor
  · intro hres hk hkn hok herr
    have hloop : extendLoop gen 0 n = ((List.range (k - 1)).map f, some e) := by
      refine extendLoop_partial e (k - 1) gen n f 0 (by omega) ?_ ?_
      · intro j hj
        simpa using hok j hj
      · simpa using herr
    have hdata : v'.data = v.data := (stdTryReserve_ok_spec hres).2
    have hmain : tryExtendWith A v n gen =
        (⟨v.data ++ (List.range (k - 1)).map f, v'.cap⟩, some e) := by
      simp only [tryExtendWith, hres, hloop, hdata]
    refine ⟨hmain, ?_⟩
    rw [hmain]
    simp
  · intro hres hf hx
    have hloop : cloneLoop cl (pre ++ x :: rest) = (ys, some e) :=
      cloneLoop_partial cl e x rest hx pre ys hf
    have hdata : w.data = v.data := (stdTryReserve_ok_spec hres).2
    have hmain : tryExtendFromSlice A v (pre ++ x :: rest) cl =
        (⟨v.data ++ ys, w.cap⟩, some e) := by
      simp only [tryExtendFromSlice, hres, hloop, hdata]
    refine ⟨hmain, ?_⟩
    rw [hmain]
    simp [hf.length_eq]

/-- Witness for C2: extending the empty buffer by 3 with a generator that
produces 10 and then fails leaves exactly `[10]` behind with the error
propagated; cloning `[1, 2]` into the empty buffer with a clone that maps 1
to 5 and fails on 2 leaves exactly `[5]` behind. -/
theorem try_extend_partial_failure_witness :
    (tryExtendWith okAlloc (Vec.new (α := Nat)) 3
        (fun j => if j = 0 then Except.ok 10 else Except.error TryReserveErr.capacityOverflow) =
      (⟨[10], 3⟩, some TryReserveErr.capacityOverflow) ∧
      (tryExtendWith okAlloc (Vec.new (α := Nat)) 3
        (fun j => if j = 0 then Except.ok 10 else Except.error TryReserveErr.capacityOverflow)).1.data.length = 0 + 1) ∧
    (tryExtendFromSlice okAlloc (Vec.new (α := Nat)) ([1] ++ 2 :: [])
        (fun a => if a = 1 then Except.ok 5 else Except.error TryReserveErr.capacityOverflow) =
      (⟨[5], 2⟩, some TryReserveErr.capacityOverflow) ∧
      (tryExtendFromSlice okAlloc (Vec.new (α := Nat)) ([1] ++ 2 :: [])
        (fun a => if a = 1 then Except.ok 5 else Except.error TryReserveErr.capacityOverflow)).1.data.length = 0 + 1) := by
  obtain ⟨h1, h2⟩ := try_extend_partial_failure okAlloc (Vec.new (α := Nat))
    ⟨[], 3⟩ ⟨[], 2⟩ 3 2
    (fun j => if j = 0 then Except.ok 10 else Except.error TryReserveErr.capacityOverflow)
    (fun _ => 10) TryReserveErr.capacityOverflow [1] [] 2 [5]
    (fun a => if a = 1 then Except.ok 5 else Except.error TryReserveErr.capacityOverflow)
  constructor
  · refine h1 (by decide) (by decide) (by decide) ?_ rfl
    intro j hj
    have hj0 : j = 0 := by omega
    subst hj0
    rfl
  · refine h2 (by decide) ?_ rfl
    exact List.Forall₂.cons rfl List.Forall₂.nil

/-- C6: `to_mut` on a `Borrowed` wrapper invokes the fallible clone of the
borrowed data and, on success, transitions the wrapper to `Owned`; on failure
the wrapper remains `Borrowed` (no partial state change) and the failure is
propagated. `to_mut` and `into_owned` on an already-`Owned` wrapper return
the existing owned value and cannot fail — the statement holds for every
clone capability `tto`, so no clone is invoked on the owned path. -/
theorem cow_to_mut_into_owned_spec {β ω ε : Type} (tto : β → Except ε ω)
    (b : β) (x : ω) :
    (∀ o, tto b = Except.ok o →
      Cow.toMut tto (Cow.borrowed b) = (Cow.owned o, Except.ok o)) ∧
    (∀ e, tto b = Except.error e →
      Cow.toMut tto (Cow.borrowed b) = (Cow.borrowed b, Except.error e)) ∧
    (Cow.toMut tto (Cow.owned x) = (Cow.owned x, Except.ok x)) ∧
    (Cow.intoOwned tto (Cow.owned x) = Except.ok x) := by
  refine ⟨?_, ?_, rfl, rfl⟩ <;> intro y h <;> simp [Cow.toMut, h]

/-- Witness for C6: with a concrete succeeding clone, `to_mut` on
`Borrowed 3` becomes `Owned 4`; with a concrete failing clone it stays
`Borrowed 3` and propagates the failure, while on `Owned 7` it still
succeeds untouched (no clone attempted). -/
theorem cow_to_mut_into_owned_witness :
    Cow.toMut (fun n : Nat => (Except.ok (n + 1) : Except Unit Nat)) (Cow.borrowed 3) =
      (Cow.owned 4, Except.ok 4) ∧
    Cow.toMut (fun _ : Nat => (Except.error () : Except Unit Nat)) (Cow.borrowed 3) =
      (Cow.borrowed 3, Except.error ()) ∧
    Cow.toMut (fun _ : Nat => (Except.error () : Except Unit Nat)) (Cow.owned 7) =
      (Cow.owned 7, Except.ok 7) ∧
    Cow.intoOwned (fun _ : Nat => (Except.error () : Except Unit Nat)) (Cow.owned 7) =
      Except.ok 7 := by
  obtain ⟨h1, -, -, -⟩ :=
    cow_to_mut_into_owned_spec (fun n : Nat => (Except.ok (n + 1) : Except Unit Nat)) 3 7
  obtain ⟨-, h2, h3, h4⟩ :=
    cow_to_mut_into_owned_spec (fun _ : Nat => (Except.error () : Except Unit Nat)) 3 7
  exact ⟨h1 4 rfl, h2 () rfl, h3, h4⟩

/-- C7: duplicating (`try_clone`) a `Borrowed` wrapper always succeeds and
produces a `Borrowed` wrapper over the same data — for every clone
capability, so no duplication of the underlying data happens; duplicating an
`Owned` wrapper runs the fallible clone on the re-borrowed owned payload and
fails exactly when that clone fails. -/
theorem cow_try_clone_spec {β ω ε : Type} (br : ω → β) (tto : β → Except ε ω)
    (b : β) (o : ω) :
    (Cow.tryClone br tto (Cow.borrowed b) = Except.ok (Cow.borrowed b)) ∧
    (∀ o2, tto (br o) = Except.ok o2 →
      Cow.tryClone br tto (Cow.owned o) = Except.ok (Cow.owned o2)) ∧
    (∀ e, tto (br o) = Except.error e →
      Cow.tryClone br tto (Cow.owned o) = Except.error e) ∧
    ((∃ e, Cow.tryClone br tto (Cow.owned o) = Except.error e) ↔
      ∃ e, tto (br o) = Except.error e) := by
  refine ⟨rfl, ?_, ?_, ?_⟩
  · intro o2 h
    simp [Cow.tryClone, h]
  · intro e h
    simp [Cow.tryClone, h]
  · constructor
    · rintro ⟨e, he⟩
      rcases hr : tto (br o) with e2 | o2
      · exact ⟨e2, rfl⟩
      · simp [Cow.tryClone, hr] at he
    · rintro ⟨e, he⟩
      exact ⟨e, by simp [Cow.tryClone, he]⟩

/-- Witness for C7: duplicating concrete wrappers — `Borrowed 3` duplicates
for free even under a failing clone; `Owned 7` duplicates through the clone
(succeeding as `Owned 8`, or failing exactly when the clone fails). -/
theorem cow_try_clone_witness :
    Cow.tryClone (id : Nat → Nat) (fun _ : Nat => (Except.error () : Except Unit Nat))
      (Cow.borrowed 3) = Except.ok (Cow.borrowed 3) ∧
    Cow.tryClone (id : Nat → Nat) (fun n : Nat => (Except.ok (n + 1) : Except Unit Nat))
      (Cow.owned 7) = Except.ok (Cow.owned 8) ∧
    Cow.tryClone (id : Nat → Nat) (fun _ : Nat => (Except.error () : Except Unit Nat))
      (Cow.owned 7) = Except.error () ∧
    (∃ e, (fun _ : Nat => (Except.error () : Except Unit Nat)) (id 7) = Except.error e) := by
  obtain ⟨-, h2, -, -⟩ :=
    cow_try_clone_spec (id : Nat → Nat) (fun n : Nat => (Except.ok (n + 1) : Except Unit Nat)) 3 7
  obtain ⟨h1, -, h3, h4⟩ :=
    cow_try_clone_spec (id : Nat → Nat) (fun _ : Nat => (Except.error () : Except Unit Nat)) 3 7
  exact ⟨h1, h2 8 rfl, h3 () rfl, h4.mp ⟨(), h3 () rfl⟩⟩

/-- C8 counterexample: the claim says converting a capacity-overflow failure
on the clone path must not panic; but
`impl From<AllocationError> for CloneError` (src/clone.rs) hits
`unreachable!` on `CapacityOverflow` — on the concrete capacity-overflow
value the conversion produces no value at all (a panic), so the claim is
false as stated. -/
theorem clone_error_conversion_panics_counterexample :
    CloneError.fromAllocationError (AllocationError.capacityOverflow 0) = none := rfl

/-- C8 (amended): the fallible entry points return both failure kinds as
values, and converting an allocation failure on the clone path yields a
clone-error value carrying the same layout; converting a capacity-overflow
failure on the clone path, however, panics (`unreachable!`) rather than
returning a value. -/
theorem clone_error_conversion_spec (l : Layout) (c : Nat) :
    CloneError.fromAllocationError (AllocationError.allocError l) =
      some (CloneError.allocError l) ∧
    CloneError.fromAllocationError (AllocationError.capacityOverflow c) = none :=
  ⟨rfl, rfl⟩

/-- C9 counterexample: reserving `usize::MAX` more bytes on a length-1 string
overflows; the computed, rejected capacity is `1 + usize::MAX`, but the
failure produced by `String::try_reserve` (src/collections/string.rs) carries
the literal `usize::MAX` — not the capacity actually rejected — so the claim
is false as stated. -/
theorem string_reserve_carried_capacity_counterexample :
    stringTryReserve okAlloc ⟨[0], 1⟩ usizeMax =
      (⟨[0], 1⟩, some (AllocationError.capacityOverflow usizeMax)) ∧
    1 + usizeMax ≠ usizeMax := by
  exact ⟨by decide, by decide⟩

/-- C9 (amended): the allocation-failure kind carries the requested size and
alignment and its rendering contains both; the capacity-overflow kind
carries a capacity and its rendering contains it; but the capacity carried
by a string-reserve overflow failure is always the sentinel `usize::MAX`,
not the capacity actually rejected. -/
theorem allocation_error_diagnostics (s a c : Nat) (A : AllocModel)
    (st st' : Vec Nat) (add c' : Nat) :
    (natChars s <:+: AllocationError.display (AllocationError.allocError ⟨s, a⟩)) ∧
    (natChars a <:+: AllocationError.display (AllocationError.allocError ⟨s, a⟩)) ∧
    (natChars c <:+: AllocationError.display (AllocationError.capacityOverflow c)) ∧
    (stringTryReserve A st add = (st', some (AllocationError.capacityOverflow c')) →
      c' = usizeMax) := by
  refine ⟨?_, ?_, ?_, ?_⟩
  · exact ⟨("failed to allocate memory, required layout \x7bsize: ").data,
      (", align: ").data ++ natChars a ++ ("\x7d").data,
      by simp [AllocationError.display]⟩
  · exact ⟨("failed to allocate memory, required layout \x7bsize: ").data ++ natChars s
        ++ (", align: ").data,
      ("\x7d").data,
      by simp [AllocationError.display]⟩
  · exact ⟨("the computed capacity exceeded the collection\x27s maximum(").data,
      (")").data,
      by simp [AllocationError.display]⟩
  · intro h
    simp only [stringTryReserve] at h
    rcases hr : stdTryReserve A st add with ⟨w, oe⟩
    rw [hr] at h
    cases oe with
    | none => simp at h
    | some e =>
      cases e with
      | capacityOverflow =>
        simp only [AllocationError.fromTryReserveError, Prod.mk.injEq,
          Option.some.injEq, AllocationError.capacityOverflow.injEq] at h
        exact h.2.symm
      | allocError layout =>
        simp [AllocationError.fromTryReserveError] at h

/-- Witness for C9 (amended): the rendering of a concrete allocation failure
contains its size digits, and the concrete overflowing string reserve from
the counterexample indeed carries `usize::MAX`. -/
theorem allocation_error_diagnostics_witness :
    (natChars 4 <:+: AllocationError.display (AllocationError.allocError ⟨4, 2⟩)) ∧
    usizeMax = usizeMax := by
  refine ⟨(allocation_error_diagnostics 4 2 0 okAlloc ⟨[0], 1⟩ ⟨[0], 1⟩ usizeMax usizeMax).1, ?_⟩
  exact (allocation_error_diagnostics 4 2 0 okAlloc ⟨[0], 1⟩ ⟨[0], 1⟩ usizeMax
    usizeMax).2.2.2 (by decide)

/-- C10: for a byte buffer used as an `io::Write` sink, `write(buf)` (and
`write_all(buf)`) is all-or-nothing: on success it appends all of `buf` and
returns `buf.len()`; if reserving `buf.len()` bytes fails it returns an
`OutOfMemory` error with the buffer unchanged; a partial write never
occurs. -/
theorem vec_write_all_or_nothing (A : AllocModel) (v : Vec Nat) (buf : List Nat) :
    (∀ v' n, vecWrite A v buf = (v', Except.ok n) →
      n = buf.length ∧ v'.data = v.data ++ buf) ∧
    (∀ v' e, vecWrite A v buf = (v', Except.error e) →
      e = IoErrorKind.outOfMemory ∧ v' = v) ∧
    (∀ v', vecWriteAll A v buf = (v', Except.ok ()) → v'.data = v.data ++ buf) ∧
    (∀ v' e, vecWriteAll A v buf = (v', Except.error e) →
      e = IoErrorKind.outOfMemory ∧ v' = v) := by
  refine ⟨?_, ?_, ?_, ?_⟩
  · intro v' n h
    simp only [vecWrite] at h
    rcases hr : stdTryReserve A v buf.length with ⟨w, oe⟩
    rw [hr] at h
    have hwd : w.data = v.data := by
      have hd := stdTryReserve_fst_data A v buf.length
      rw [hr] at hd
      simpa using hd
    cases oe with
    | some e => simp at h
    | none =>
      rw [Prod.mk.injEq] at h
      obtain ⟨rfl, hn⟩ := h
      exact ⟨(Except.ok.inj hn).symm, by simp [hwd]⟩
  · intro v' e h
    simp only [vecWrite] at h
    rcases hr : stdTryReserve A v buf.length with ⟨w, oe⟩
    rw [hr] at h
    cases oe with
    | some e2 =>
      rw [Prod.mk.injEq] at h
      obtain ⟨rfl, he⟩ := h
      exact ⟨(Except.error.inj he).symm, stdTryReserve_fail_unchanged hr⟩
    | none => simp at h
  · intro v' h
    simp only [vecWriteAll] at h
    rcases hr : stdTryReserve A v buf.length with ⟨w, oe⟩
    rw [hr] at h
    have hwd : w.data = v.data := by
      have hd := stdTryReserve_fst_data A v buf.length
      rw [hr] at hd
      simpa using hd
    cases oe with
    | some e => simp at h
    | none =>
      rw [Prod.mk.injEq] at h
      obtain ⟨rfl, -⟩ := h
      simp [hwd]
  · intro v' e h
    simp only [vecWriteAll] at h
    rcases hr : stdTryReserve A v buf.length with ⟨w, oe⟩
    rw [hr] at h
    cases oe with
    | some e2 =>
      rw [Prod.mk.injEq] at h
      obtain ⟨rfl, he⟩ := h
      exact ⟨(Except.error.inj he).symm, stdTryReserve_fail_unchanged hr⟩
    | none => simp at h

/-- Witness for C10: concretely, writing `[1, 2]` into the empty buffer under
the granting allocator appends both bytes and returns 2, and writing `[1]`
under the refusing allocator returns `OutOfMemory` with the buffer
unchanged — for both `write` and `write_all`. -/
theorem vec_write_all_or_nothing_witness :
    (2 = [1, 2].length ∧ (⟨[1, 2], 2⟩ : Vec Nat).data = (Vec.new (α := Nat)).data ++ [1, 2]) ∧
    (IoErrorKind.outOfMemory = IoErrorKind.outOfMemory ∧ Vec.new (α := Nat) = Vec.new) ∧
    (⟨[1, 2], 2⟩ : Vec Nat).data = (Vec.new (α := Nat)).data ++ [1, 2] ∧
    (IoErrorKind.outOfMemory = IoErrorKind.outOfMemory ∧ Vec.new (α := Nat) = Vec.new) := by
  obtain ⟨w1, -, w3, -⟩ := vec_write_all_or_nothing okAlloc (Vec.new (α := Nat)) [1, 2]
  obtain ⟨-, f2, -, f4⟩ := vec_write_all_or_nothing failAlloc (Vec.new (α := Nat)) [1]
  exact ⟨w1 ⟨[1, 2], 2⟩ 2 rfl, f2 Vec.new IoErrorKind.outOfMemory rfl,
    w3 ⟨[1, 2], 2⟩ rfl, f4 Vec.new IoErrorKind.outOfMemory rfl⟩

end Fallacy
